import Mathlib

/-!
Verification of the EyeNet multi-backend network-controller abstraction and
its failover manager, shallowly embedded from the TypeScript sources:
  - `NetworkControllerManager`            (src/unnamed/part_007)
  - `PfSenseController` (firewall)        (src/unnamed/part_005, first file)
  - `OpenDaylightController` (SDN)        (src/unnamed/part_005, second file)
  - `MikroTikController` (router OS)      (src/unnamed/part_006)

Asynchronous vendor calls are modelled as environment-supplied outcomes
(`Except String _`); a rejected promise is `.error msg`.  JavaScript
truthiness and `parseInt` defaulting are modelled explicitly.
-/

namespace EyeNet

/-- JavaScript `a || d` for an optional string `a`: `undefined` and the empty
string are falsy and yield the default. -/
def jsOrDefault (o : Option String) (d : String) : String :=
  match o with
  | none => d
  | some s => if s = "" then d else s

/-- JavaScript `a || 0` for an optional number `a`: `undefined` yields 0
(and 0 itself is falsy, yielding 0 as well). -/
def jsOr0 (o : Option Int) : Int :=
  o.getD 0

/-- Numeric value of a list of decimal digit characters. -/
def natOfDigits (cs : List Char) : Nat :=
  cs.foldl (fun n c => n * 10 + (c.toNat - '0'.toNat)) 0

/-- JavaScript `parseInt(s)` (radix 10): skip leading whitespace, optional
sign, longest digit run; `none` models `NaN`. -/
def jsParseInt (s : String) : Option Int :=
  match s.toList.dropWhile Char.isWhitespace with
  | '-' :: rest =>
    let ds := rest.takeWhile Char.isDigit
    if ds.isEmpty then none else some (-(natOfDigits ds : Int))
  | '+' :: rest =>
    let ds := rest.takeWhile Char.isDigit
    if ds.isEmpty then none else some (natOfDigits ds)
  | cs =>
    let ds := cs.takeWhile Char.isDigit
    if ds.isEmpty then none else some (natOfDigits ds)

/-- JavaScript `parseInt(x) || 0` where `x` may be a missing field:
missing (`undefined`) or unparsable (`NaN`) values default to 0. -/
def parseIntOr0 (o : Option String) : Int :=
  match o with
  | none => 0
  | some s => (jsParseInt s).getD 0

/-- Whether an awaited vendor call succeeded (a resolved promise). -/
def isOk {α : Type} (r : Except String α) : Bool :=
  match r with
  | .ok _ => true
  | .error _ => false

/-- Whether a `healthCheck()` call resolved with value `true`; a rejected
promise or a `false` result both count as unhealthy. -/
def isOkTrue (r : Except String Bool) : Bool :=
  match r with
  | .ok true => true
  | _ => false

/-! ## Adapter health checks (claim C8)

Each adapter's `healthCheck()` performs one lightweight probe inside
`try { probe; return true } catch { return false }`.  The probe outcome is
supplied by the environment. -/

/-- `PfSenseController.healthCheck` (part_005 lines 153-160): probes
`GET /system/status`; returns `true` on success, `false` on any error. -/
def pfSenseHealthCheck (probe : Except String Unit) : Except String Bool :=
  match probe with
  | .ok _ => .ok true
  | .error _ => .ok false

/-- `OpenDaylightController.healthCheck` (part_005 lines 333-340): probes the
network-topology endpoint; returns `true` on success, `false` on any error. -/
def openDaylightHealthCheck (probe : Except String Unit) : Except String Bool :=
  match probe with
  | .ok _ => .ok true
  | .error _ => .ok false

/-- `MikroTikController.executeCommand` (part_006 lines 176-186): throws when
no client session exists, otherwise forwards the device's response. -/
def mikroTikExecuteCommand {α : Type} (connected : Bool) (response : Except String α) :
    Except String α :=
  if connected then response else .error "Not connected to MikroTik router"

/-- `MikroTikController.healthCheck` (part_006 lines 167-174): probes
`/system/resource/print` through `executeCommand`; any internal error
(including the not-connected error) is caught and becomes `false`. -/
def mikroTikHealthCheck (connected : Bool) (probe : Except String Unit) :
    Except String Bool :=
  match mikroTikExecuteCommand connected probe with
  | .ok _ => .ok true
  | .error _ => .ok false

/-! ## QoS policy and the router adapter's translation (claim C6) -/

/-- The uniform `QoSPolicy` input (interfaces/networkController.ts). -/
structure QoSPolicy where
  id : String
  name : String
  targetDevice : String
  bandwidthMin : Nat
  bandwidthMax : Nat
  priority : Nat
  protocol : Option String
  ports : Option (List Nat)
  deriving Repr, DecidableEq

/-- One RouterOS API command issued by the MikroTik adapter: the command
path and its named parameters, in source order. -/
structure RouterCommand where
  path : String
  params : List (String × String)
  deriving Repr, DecidableEq

/-- `MikroTikController.applyQoSPolicy` (part_006 lines 136-165), success
path: the sequence of RouterOS commands issued, in order.  One
`/queue/simple/add`, then — when `policy.ports` is present and non-empty —
one `/ip/firewall/mangle/add` per listed port, with
`protocol: policy.protocol || 'tcp'`. -/
def mikroTikApplyQoSPolicyCommands (policy : QoSPolicy) : List RouterCommand :=
  let queue : RouterCommand :=
    { path := "/queue/simple/add"
      params :=
        [("name", policy.name),
         ("target", policy.targetDevice),
         ("max-limit", toString policy.bandwidthMax ++ "M/" ++ toString policy.bandwidthMax ++ "M"),
         ("limit-at", toString policy.bandwidthMin ++ "M/" ++ toString policy.bandwidthMin ++ "M"),
         ("priority", toString policy.priority),
         ("comment", "QoS policy " ++ policy.id)] }
  let mangles : List RouterCommand :=
    match policy.ports with
    | none => []
    | some ps =>
      if ps.length > 0 then
        ps.map fun port =>
          { path := "/ip/firewall/mangle/add"
            params :=
              [("chain", "prerouting"),
               ("dst-port", toString port),
               ("protocol", jsOrDefault policy.protocol "tcp"),
               ("action", "mark-connection"),
               ("new-connection-mark", policy.name ++ "_conn"),
               ("comment", "QoS mark for " ++ policy.name)] }
      else []
  queue :: mangles

/-! ## Firewall adapter statistics (claim C7) -/

/-- One entry of the pfSense `/interface/stats` response; each counter field
may be absent or hold an arbitrary (possibly unparsable) string. -/
structure PfIfaceCounters where
  inbytes : Option String
  outbytes : Option String
  inpkts : Option String
  outpkts : Option String
  deriving Repr, DecidableEq

/-- The normalized `NetworkStats` aggregate (without the timestamp, which is
wall-clock time). -/
structure NetworkStatsRec where
  bytesIn : Int
  bytesOut : Int
  packetsIn : Int
  packetsOut : Int
  activeConnections : Int
  deriving Repr, DecidableEq

/-- `PfSenseController.getStats` (part_005 lines 99-127), success path:
`activeConnections` is `states.data.total || 0`, then each interface's
counters are added with `parseInt(x) || 0` defaulting. -/
def pfSenseGetStats (ifaces : List PfIfaceCounters) (statesTotal : Option Int) :
    NetworkStatsRec :=
  let init : NetworkStatsRec :=
    { bytesIn := 0, bytesOut := 0, packetsIn := 0, packetsOut := 0
      activeConnections := jsOr0 statesTotal }
  ifaces.foldl
    (fun st iface =>
      { st with
        bytesIn := st.bytesIn + parseIntOr0 iface.inbytes
        bytesOut := st.bytesOut + parseIntOr0 iface.outbytes
        packetsIn := st.packetsIn + parseIntOr0 iface.inpkts
        packetsOut := st.packetsOut + parseIntOr0 iface.outpkts })
    init

/-- A counter field that is missing or whose string does not parse as a
number (JavaScript `parseInt` gives `NaN`). -/
def counterBlank (o : Option String) : Bool :=
  match o with
  | none => true
  | some s => (jsParseInt s).isNone

/-- An interface-stats entry all four of whose counters are missing or
unparsable. -/
def blankEntry (e : PfIfaceCounters) : Bool :=
  counterBlank e.inbytes && counterBlank e.outbytes &&
    counterBlank e.inpkts && counterBlank e.outpkts

/-! ## Device listings and the `ipAddress` field (claim C4)

In the TypeScript sources `NetworkDevice.ipAddress` is declared `string`.
The embedding distinguishes a plain string value from an unawaited
`Promise` object assigned where a string was expected. -/

/-- A JavaScript value stored in a field declared `string`: either an actual
string, or a `Promise` (with its eventual resolution value) that was
assigned without `await`. -/
inductive JsStringField where
  | str (s : String)
  | promise (eventual : String)
  deriving Repr, DecidableEq

/-- Normalized device record as built by the adapters' `getDevices()`
(id, name, type and the wall-clock `lastSeen` omitted where irrelevant). -/
structure DeviceRec where
  id : String
  name : String
  type : String
  ipAddress : JsStringField
  statusOnline : Bool
  deriving Repr, DecidableEq

/-- One entry of the MikroTik `/interface/print` response. -/
structure MTIface where
  dotId : String
  name : String
  type : String
  running : Bool
  deriving Repr, DecidableEq

/-- `MikroTikController.getInterfaceIp` (part_006 lines 70-79): looks up
`/ip/address/print` filtered by interface name and returns
`addresses[0]?.address?.split('/')[0] || 'unknown'`, catching every error as
`'unknown'`.  `addrs` maps an interface name to the lookup outcome; each
returned entry's `address` field may be absent. -/
def getInterfaceIp (addrs : String → Except String (List (Option String)))
    (ifaceName : String) : String :=
  match addrs ifaceName with
  | .error _ => "unknown"
  | .ok entries =>
    match entries.head? with
    | none => "unknown"
    | some none => "unknown"
    | some (some a) =>
      let first := ((a.splitOn "/").headD "")
      if first = "" then "unknown" else first

/-- `MikroTikController.getDevices` (part_006 lines 52-68), success path.
The source assigns `ipAddress: this.getInterfaceIp(iface.name)` without
`await`, so the field receives the `Promise` object itself, not its
resolution value. -/
def mikroTikGetDevices (addrs : String → Except String (List (Option String)))
    (ifaces : List MTIface) : List DeviceRec :=
  ifaces.map fun iface =>
    { id := iface.dotId
      name := iface.name
      type := iface.type
      ipAddress := .promise (getInterfaceIp addrs iface.name)
      statusOnline := iface.running }

/-- One entry of the pfSense `/interface` response. -/
structure PfIface where
  ifName : String
  descr : Option String
  ipaddr : Option String
  enable : Bool
  deriving Repr, DecidableEq

/-- `PfSenseController.getDevices` (part_005 lines 61-76), success path:
`ipAddress: iface.ipaddr || 'unknown'`. -/
def pfSenseGetDevices (ifaces : List PfIface) : List DeviceRec :=
  ifaces.map fun iface =>
    { id := iface.ifName
      name := jsOrDefault iface.descr iface.ifName
      type := "pfSense Interface"
      ipAddress := .str (jsOrDefault iface.ipaddr "unknown")
      statusOnline := iface.enable }

/-- One node of the OpenDaylight network-topology response. -/
structure OdlNode where
  nodeId : String
  ipAddr : Option String
  statusStr : Option String
  deriving Repr, DecidableEq

/-- `OpenDaylightController.getDevices` (part_005 lines 207-226), success
path: `flatMap` over topologies whose `node` list may be absent;
`ipAddress: node['flow-node-inventory:ip-address'] || 'unknown'`;
status `'online'` exactly when the status string is `'UP'`. -/
def openDaylightGetDevices (topologies : List (Option (List OdlNode))) :
    List DeviceRec :=
  topologies.flatMap fun topo =>
    match topo with
    | none => []
    | some nodes =>
      nodes.map fun node =>
        { id := node.nodeId
          name := node.nodeId
          type := "OpenFlow"
          ipAddress := .str (jsOrDefault node.ipAddr "unknown")
          statusOnline := node.statusStr = some "UP" }

/-! ## The failover manager (claims C1, C2, C3, C5, C9, C10)

`NetworkControllerManager` (part_007).  Controllers are identified by their
index in the manager's `controllers` array; `activeController` is an
optional index (reference equality between adapters is index equality).
Health checks, connect attempts and delegated calls are environment-supplied
outcome functions indexed by controller. -/

/-- The three adapter classes, in the fixed order `initializeControllers`
declares them: SDN controller, then firewall, then router. -/
inductive AdapterKind where
  | openDaylight
  | pfSense
  | mikroTik
  deriving Repr, DecidableEq

/-- `controller.constructor.name` for each adapter class. -/
def className : AdapterKind → String
  | .openDaylight => "OpenDaylightController"
  | .pfSense => "PfSenseController"
  | .mikroTik => "MikroTikController"

/-- The manager's configuration, reduced to which backends are present
(part_007 lines 11-32). -/
structure ManagerConfig where
  openDaylight : Bool
  pfSense : Bool
  mikroTik : Bool
  deriving Repr, DecidableEq

/-- `NetworkControllerManager.initializeControllers` (part_007 lines 38-48):
builds the adapter array in fixed configuration order — OpenDaylight, then
pfSense, then MikroTik — keeping only configured backends. -/
def initializeControllers (cfg : ManagerConfig) : List AdapterKind :=
  (if cfg.openDaylight then [AdapterKind.openDaylight] else []) ++
  (if cfg.pfSense then [AdapterKind.pfSense] else []) ++
  (if cfg.mikroTik then [AdapterKind.mikroTik] else [])

/-- Manager state: the fixed adapter list, the active-controller index, and
whether the periodic failover timer is running. -/
structure ManagerState where
  controllers : List AdapterKind
  active : Option Nat
  timerOn : Bool
  deriving Repr, DecidableEq

/-- The manager constructor (part_007 lines 33-36): initializes the
controllers and starts the failover timer; no adapter is active yet. -/
def managerInit (cfg : ManagerConfig) : ManagerState :=
  { controllers := initializeControllers cfg
    active := none
    timerOn := true }

/-- The loop body of `selectActiveController` (part_007 lines 76-87): scan
the given controller indices in order; the first whose `healthCheck()`
resolves `true` wins; a `false` result or a caught error moves on. -/
def selectLoop (hc : Nat → Except String Bool) : List Nat → Option Nat
  | [] => none
  | i :: rest => if isOkTrue (hc i) then some i else selectLoop hc rest

/-- `NetworkControllerManager.selectActiveController` (part_007 lines
75-89): on success the scanned index becomes active; when no controller is
healthy it throws without touching the active pointer. -/
def selectActiveController (hc : Nat → Except String Bool) (s : ManagerState) :
    Except String ManagerState :=
  match selectLoop hc (List.range s.controllers.length) with
  | some i => .ok { s with active := some i }
  | none => .error "No healthy controllers available"

/-- `NetworkControllerManager.checkAndFailover` (part_007 lines 57-73), one
timer tick.  Returns the state after the tick together with any error that
escaped the callback (the manager state survives an escaped rejection).
With no active controller, selection runs directly.  Otherwise the active
controller is probed inside `try`: an unhealthy result re-runs selection
inside the `try` (whose throw the `catch` intercepts and answers with one
more selection attempt); a probe error goes straight to the `catch`'s
selection.  A failed selection leaves the active pointer unchanged. -/
def checkAndFailover (hc : Nat → Except String Bool) (s : ManagerState) :
    ManagerState × Option String :=
  match s.active with
  | none =>
    match selectActiveController hc s with
    | .ok s' => (s', none)
    | .error e => (s, some e)
  | some a =>
    match hc a with
    | .ok true => (s, none)
    | .ok false =>
      match selectActiveController hc s with
      | .ok s' => (s', none)
      | .error _ =>
        match selectActiveController hc s with
        | .ok s' => (s', none)
        | .error e => (s, some e)
    | .error _ =>
      match selectActiveController hc s with
      | .ok s' => (s', none)
      | .error e => (s, some e)

/-- The per-adapter connect failures collected by `connect()` (part_007
lines 92-100), in controller order. -/
def connectErrors (co : Nat → Except String Unit) (n : Nat) : List String :=
  (List.range n).filterMap fun i =>
    match co i with
    | .ok _ => none
    | .error e => some e

/-- `NetworkControllerManager.connect` (part_007 lines 91-107): attempt
every adapter's `connect()` collecting failures, then run selection.  A
selection throw propagates as-is; only when selection returns with no
active controller would the aggregated message be raised. -/
def managerConnect (co : Nat → Except String Unit) (hc : Nat → Except String Bool)
    (s : ManagerState) : Except String ManagerState :=
  let errors := connectErrors co s.controllers.length
  match selectActiveController hc s with
  | .error e => .error e
  | .ok s' =>
    match s'.active with
    | none =>
      .error ("Failed to connect to any controllers: " ++ String.intercalate ", " errors)
    | some _ => .ok s'

/-- Delegation core shared by `getDevices`, `getFlows`, `getStats`,
`applyQoSPolicy` and `healthCheck` on the manager (part_007 lines 121-150):
`ensureActiveController` throws when no controller is active; otherwise the
call is forwarded once to the active controller and its outcome is returned
untouched.  The result carries the manager state after the call and the
list of controller indices actually invoked. -/
def delegate {α : Type} (s : ManagerState) (call : Nat → Except String α) :
    Except String α × ManagerState × List Nat :=
  match s.active with
  | none => (.error "No active controller available", s, [])
  | some a => (call a, s, [a])

/-- One line of `getAllControllersStatus` (part_007 lines 156-170). -/
structure ControllerStatus where
  type : String
  healthy : Bool
  active : Bool
  deriving Repr, DecidableEq

/-- `NetworkControllerManager.getAllControllersStatus` (part_007 lines
152-170): for every configured controller report its class name, a fresh
health-check result `hcB`, and whether it is the active controller
(reference equality, i.e. index equality). -/
def getAllControllersStatus (hcB : Nat → Bool) (s : ManagerState) :
    List ControllerStatus :=
  (List.range s.controllers.length).map fun i =>
    { type := className (s.controllers.getD i AdapterKind.openDaylight)
      healthy := hcB i
      active := decide (s.active = some i) }

/-! ## Trace semantics

Interleavings of `connect()`, timer ticks and delegated calls, with a ghost
field recording which adapter served the most recent delegated call. -/

/-- Manager state plus the ghost record of the adapter that served the most
recent delegated call. -/
structure TraceState where
  ms : ManagerState
  lastServed : Option Nat
  deriving Repr, DecidableEq

/-- An event in a manager execution: a `connect()` call, a failover-timer
tick, or a delegated query.  Connect and tick carry the environment's
per-adapter outcomes at that moment. -/
inductive MEvent where
  | connectEv (co : Nat → Except String Unit) (hc : Nat → Except String Bool)
  | tickEv (hc : Nat → Except String Bool)
  | queryEv

/-- One execution step.  A failed `connect()` or tick leaves the manager
state as it was (the thrown error escapes to the caller or the timer).  A
delegated query records its server; with no active controller it throws and
serves nothing. -/
def mstep (ts : TraceState) (e : MEvent) : TraceState :=
  match e with
  | .connectEv co hc =>
    match managerConnect co hc ts.ms with
    | .ok s' => { ts with ms := s' }
    | .error _ => ts
  | .tickEv hc => { ts with ms := (checkAndFailover hc ts.ms).1 }
  | .queryEv =>
    match ts.ms.active with
    | some a => { ts with lastServed := some a }
    | none => ts

/-- Run a sequence of events from a state. -/
def mrun (ts : TraceState) (es : List MEvent) : TraceState :=
  es.foldl mstep ts

/-- Freshly constructed manager: timer already running, nothing active, no
call served yet. -/
def initTrace (cfg : ManagerConfig) : TraceState :=
  { ms := managerInit cfg, lastServed := none }

/-! ## Concrete configurations and environments used as test inputs -/

/-- Configuration declaring all three backends (as the repository's manager
test does). -/
def cfgAll : ManagerConfig := { openDaylight := true, pfSense := true, mikroTik := true }

/-- Every adapter's `connect()` resolves. -/
def coAllOk : Nat → Except String Unit := fun _ => .ok ()

/-- Every adapter's `connect()` rejects with the adapters' uniform
connection-failure message. -/
def coAllFail : Nat → Except String Unit := fun _ => .error "Connection failed"

/-- Every health check resolves `true`. -/
def hcAllTrue : Nat → Except String Bool := fun _ => .ok true

/-- Every health check resolves `false`. -/
def hcAllFalse : Nat → Except String Bool := fun _ => .ok false

/-- Only controller `j` is healthy. -/
def hcOnly (j : Nat) : Nat → Except String Bool := fun i => .ok (i == j)

/-- Exactly the controllers with index below `k` are healthy. -/
def hcBelow (k : Nat) : Nat → Except String Bool := fun i => .ok (decide (i < k))

/-- The spec's failover scenario: adapters [A, B, C] with A and B healthy at
connect time; on the first tick only B is healthy; on the second tick none
is. -/
def c2trace : TraceState :=
  mrun (initTrace cfgAll)
    [MEvent.connectEv coAllOk (hcBelow 2),
     MEvent.tickEv (hcOnly 1),
     MEvent.tickEv hcAllFalse]

/-- A run in which a delegated call is served by the first adapter and a
failover to the second adapter happens afterwards. -/
def c9trace : TraceState :=
  mrun (initTrace cfgAll)
    [MEvent.connectEv coAllOk hcAllTrue,
     MEvent.queryEv,
     MEvent.tickEv (hcOnly 1)]

/-- A manager with all three adapters whose first adapter is active. -/
def stateActive0 : ManagerState :=
  { controllers := initializeControllers cfgAll, active := some 0, timerOn := true }

/-- A trace state sitting at `stateActive0` with no call served yet. -/
def traceActive0 : TraceState := { ms := stateActive0, lastServed := none }

/-- A delegated call that rejects with the vendor error seen in the
repository's adapter tests. -/
def callApiError : Nat → Except String (List String) := fun _ => .error "API Error"

/-- A delegated call that resolves to a device list. -/
def callDevices : Nat → Except String (List String) := fun _ => .ok ["device-1"]

/-- The MikroTik interface entry of the repository's own unit test
"should handle interface without IP address". -/
def mtIfaceNoAddr : MTIface := { dotId := "*1", name := "ether1", type := "ether", running := true }

/-- An `/ip/address/print` lookup that finds no address entry for any
interface. -/
def noAddrTable : String → Except String (List (Option String)) := fun _ => .ok []

/-- A pfSense interface entry whose `ipaddr` field is absent. -/
def pfIfaceNoAddr : PfIface := { ifName := "wan", descr := none, ipaddr := none, enable := true }

/-- An OpenDaylight topology with one node carrying no ip-address field. -/
def odlTopoNoIp : List (Option (List OdlNode)) :=
  [some [{ nodeId := "openflow:1", ipAddr := none, statusStr := some "UP" }]]

/-- Interface-stats entries with fully missing or unparsable counters, as in
the repository's pfSense unit test "should handle missing statistics". -/
def blankIfaceStats : List PfIfaceCounters :=
  [{ inbytes := none, outbytes := none, inpkts := none, outpkts := none },
   { inbytes := some "abc", outbytes := some "", inpkts := some "n/a", outpkts := none }]

/-! ## Lemmas about the selection scan -/

theorem selectLoop_eq_none_iff (hc : Nat → Except String Bool) (l : List Nat) :
    selectLoop hc l = none ↔ ∀ x ∈ l, isOkTrue (hc x) = false := by
  induction l with
  | nil => simp [selectLoop]
  | cons a t ih =>
    by_cases h : isOkTrue (hc a)
    · simp [selectLoop, h]
    · simp only [selectLoop, if_neg h, ih, List.mem_cons]
      constructor
      · intro hall x hx
        rcases hx with rfl | hx
        · exact Bool.not_eq_true _ ▸ (by simpa using h)
        · exact hall x hx
      · intro hall x hx
        exact hall x (Or.inr hx)

theorem selectLoop_append (hc : Nat → Except String Bool) (l1 l2 : List Nat) :
    selectLoop hc (l1 ++ l2) =
      match selectLoop hc l1 with
      | some j => some j
      | none => selectLoop hc l2 := by
  induction l1 with
  | nil => simp [selectLoop]
  | cons a t ih =>
    by_cases h : isOkTrue (hc a)
    · simp [selectLoop, h]
    · simpa [selectLoop, h] using ih

/-- Soundness of the selection scan over `range n`: a selected index is in
range, healthy, and every earlier index is unhealthy — deterministic
priority-list failover. -/
theorem selectLoop_range_spec (hc : Nat → Except String Bool) (n j : Nat)
    (h : selectLoop hc (List.range n) = some j) :
    j < n ∧ isOkTrue (hc j) = true ∧ ∀ k < j, isOkTrue (hc k) = false := by
  induction n with
  | zero => simp [List.range_zero, selectLoop] at h
  | succ m ih =>
    rw [List.range_succ, selectLoop_append] at h
    cases hsel : selectLoop hc (List.range m) with
    | some j' =>
      rw [hsel] at h
      cases h
      obtain ⟨h1, h2, h3⟩ := ih hsel
      exact ⟨Nat.lt_succ_of_lt h1, h2, h3⟩
    | none =>
      rw [hsel] at h
      by_cases hm : isOkTrue (hc m)
      · simp only [selectLoop, if_pos hm] at h
        injection h with hmj
        subst hmj
        refine ⟨Nat.lt_succ_self _, hm, fun k hk => ?_⟩
        exact (selectLoop_eq_none_iff hc (List.range m)).mp hsel k
          (List.mem_range.mpr hk)
      · simp [selectLoop, hm] at h

/-- Completeness of the selection scan: when some index in range is healthy
the scan succeeds. -/
theorem selectLoop_range_isSome (hc : Nat → Except String Bool) (n : Nat)
    (h : ∃ i, i < n ∧ isOkTrue (hc i) = true) :
    ∃ j, selectLoop hc (List.range n) = some j := by
  obtain ⟨i, hi, hok⟩ := h
  cases hsel : selectLoop hc (List.range n) with
  | some j => exact ⟨j, rfl⟩
  | none =>
    have := (selectLoop_eq_none_iff hc (List.range n)).mp hsel i
      (List.mem_range.mpr hi)
    rw [this] at hok
    cases hok

/-! ## Claim theorems -/

/-- C1: For every manager configuration in which at least one configured
adapter's health check returns true at connect time, `connect()` completes
successfully and the single active adapter (the `active` pointer holds
exactly one index) is the first adapter, in the fixed configuration order
(SDN controller, then firewall, then router, as `initializeControllers`
declares them), whose health check returned true: the selected index is
healthy and every earlier index is not. -/
theorem connect_selects_first_healthy (cfg : ManagerConfig)
    (co : Nat → Except String Unit) (hc : Nat → Except String Bool)
    (h : ∃ i, i < (initializeControllers cfg).length ∧ isOkTrue (hc i) = true) :
    ∃ j, managerConnect co hc (managerInit cfg) =
        .ok { managerInit cfg with active := some j } ∧
      j < (initializeControllers cfg).length ∧ isOkTrue (hc j) = true ∧
      ∀ k < j, isOkTrue (hc k) = false := by
  obtain ⟨j, hsel⟩ := selectLoop_range_isSome hc (initializeControllers cfg).length h
  obtain ⟨h1, h2, h3⟩ := selectLoop_range_spec hc _ j hsel
  refine ⟨j, ?_, h1, h2, h3⟩
  simp only [managerConnect, selectActiveController, managerInit]
  rw [hsel]

/-- Witness for C1: with all three backends configured and only the second
adapter healthy, `connect()` activates index 1 (pfSense). -/
theorem connect_selects_first_healthy_witness :
    ∃ j, managerConnect coAllOk (hcOnly 1) (managerInit cfgAll) =
        .ok { managerInit cfgAll with active := some j } ∧
      j < (initializeControllers cfgAll).length ∧ isOkTrue (hcOnly 1 j) = true ∧
      ∀ k < j, isOkTrue (hcOnly 1 k) = false :=
  connect_selects_first_healthy cfgAll coAllOk (hcOnly 1) ⟨1, by decide, rfl⟩

/-- C3: When every configured adapter is unhealthy at connect time —
regardless of the individual connect outcomes `co`, whose collected errors
feed only the unreachable aggregating branch — `connect()` raises the plain
`'No healthy controllers available'` error thrown by
`selectActiveController`, not a ConnectionError aggregating the underlying
per-adapter connection failures.  The conclusion does not mention `co`, so
the underlying failures (e.g. the adapters' `'Connection failed'` messages)
never reach the caller. -/
theorem connect_error_not_aggregated (cfg : ManagerConfig)
    (co : Nat → Except String Unit) (hc : Nat → Except String Bool)
    (hall : ∀ i, isOkTrue (hc i) = false) :
    managerConnect co hc (managerInit cfg) =
      .error "No healthy controllers available" := by
  have hnone : selectLoop hc (List.range (initializeControllers cfg).length) = none :=
    (selectLoop_eq_none_iff hc _).mpr fun x _ => hall x
  simp only [managerConnect, selectActiveController, managerInit]
  rw [hnone]

/-- Witness for C3: all three backends configured, every `connect()`
rejecting with `'Connection failed'` and every health check false; the
raised error carries none of the collected messages. -/
theorem connect_error_not_aggregated_witness :
    managerConnect coAllFail hcAllFalse (managerInit cfgAll) =
      .error "No healthy controllers available" :=
  connect_error_not_aggregated cfgAll coAllFail hcAllFalse fun _ => rfl

/-- C2 counterexample, following the spec's own scenario [A healthy,
B healthy, C unhealthy]: after `connect()` (active = A) and a tick in which
only B is healthy (active = B), a tick in which every adapter is unhealthy
leaves B active — the active pointer does not become none, `getDevices()`
delegates to the stale adapter B instead of raising
NoActiveControllerError, and the status report still shows `active=true`
for B. -/
theorem allUnhealthy_keeps_stale_active_cex :
    c2trace.ms.active = some 1 ∧
    delegate c2trace.ms callDevices = (.ok ["device-1"], c2trace.ms, [1]) ∧
    (delegate c2trace.ms callDevices).1 ≠ .error "No active controller available" ∧
    (getAllControllersStatus (fun _ => false) c2trace.ms).map ControllerStatus.active =
      [false, true, false] := by
  refine ⟨rfl, rfl, ?_, rfl⟩
  intro h
  cases h

/-- C2 amended: when every adapter reports unhealthy, a timer tick never
changes the active pointer (the selection throw leaves it as it was); only
in the case where no adapter is currently active do delegated queries raise
`'No active controller available'` and does the status report show
`active=false` for every adapter. -/
theorem allUnhealthy_behavior_amended (s : ManagerState)
    (hc : Nat → Except String Bool) (hcB : Nat → Bool)
    (hall : ∀ i, isOkTrue (hc i) = false) :
    (checkAndFailover hc s).1 = s ∧
    (s.active = none →
      (∀ (α : Type) (call : Nat → Except String α),
        delegate s call = (.error "No active controller available", s, [])) ∧
      ∀ st ∈ getAllControllersStatus hcB s, st.active = false) := by
  have hnone : selectLoop hc (List.range s.controllers.length) = none :=
    (selectLoop_eq_none_iff hc _).mpr fun x _ => hall x
  have hsel : selectActiveController hc s = .error "No healthy controllers available" := by
    simp only [selectActiveController]
    rw [hnone]
  constructor
  · cases hact : s.active with
    | none => simp [checkAndFailover, hact, hsel]
    | some a =>
      cases hca : hc a with
      | ok b =>
        cases b with
        | true => simp [checkAndFailover, hact, hca]
        | false => simp [checkAndFailover, hact, hca, hsel]
      | error e => simp [checkAndFailover, hact, hca, hsel]
  · intro hact
    refine ⟨fun α call => by simp [delegate, hact], ?_⟩
    intro st hst
    simp only [getAllControllersStatus, List.mem_map, List.mem_range] at hst
    obtain ⟨i, _, rfl⟩ := hst
    simp [hact]

/-- Witness for C2's amended claim: a freshly constructed three-adapter
manager (no adapter active) with every health check false. -/
theorem allUnhealthy_behavior_amended_witness :
    (checkAndFailover hcAllFalse (managerInit cfgAll)).1 = managerInit cfgAll ∧
    ((managerInit cfgAll).active = none →
      (∀ (α : Type) (call : Nat → Except String α),
        delegate (managerInit cfgAll) call =
          (.error "No active controller available", managerInit cfgAll, [])) ∧
      ∀ st ∈ getAllControllersStatus (fun _ => false) (managerInit cfgAll),
        st.active = false) :=
  allUnhealthy_behavior_amended (managerInit cfgAll) hcAllFalse (fun _ => false)
    fun _ => rfl

/-- C4: On the failing input of the repository's own unit test — a router
interface with no address entry — the router adapter stores in `ipAddress`
the unawaited `Promise` returned by `getInterfaceIp`, not a string: the
field is never the literal string `"unknown"` (nor any other string), even
though the promise would resolve to `"unknown"`.  The firewall and SDN
adapters, by contrast, do store the plain string `"unknown"` when the
vendor provides no address. -/
theorem mikroTik_ipAddress_unawaited_promise :
    (mikroTikGetDevices noAddrTable [mtIfaceNoAddr]).map DeviceRec.ipAddress =
      [JsStringField.promise "unknown"] ∧
    (∀ s : String, JsStringField.promise "unknown" ≠ JsStringField.str s) ∧
    (pfSenseGetDevices [pfIfaceNoAddr]).map DeviceRec.ipAddress =
      [JsStringField.str "unknown"] ∧
    (openDaylightGetDevices odlTopoNoIp).map DeviceRec.ipAddress =
      [JsStringField.str "unknown"] :=
  ⟨rfl, fun _ h => JsStringField.noConfusion h, rfl, rfl⟩

/-- C5: When a delegated call fails on the active adapter, the manager
returns the adapter's error verbatim (no rewrapping), invokes the adapter
exactly once (no retry: the invocation trace is `[a]`), and the manager
state — in particular the active pointer — is unchanged. -/
theorem delegated_failure_propagates_unchanged {α : Type} (s : ManagerState)
    (call : Nat → Except String α) (a : Nat) (e : String)
    (ha : s.active = some a) (he : call a = .error e) :
    delegate s call = (.error e, s, [a]) := by
  simp [delegate, ha, he]

/-- Witness for C5: three adapters, the first active, whose delegated call
rejects with `'API Error'`. -/
theorem delegated_failure_propagates_unchanged_witness :
    delegate stateActive0 callApiError = (.error "API Error", stateActive0, [0]) :=
  delegated_failure_propagates_unchanged stateActive0 callApiError 0 "API Error"
    rfl rfl

/-- C6: For any policy with `ports = [80, 443]` and `protocol = "tcp"`, the
router adapter issues exactly one `/queue/simple/add` command followed by
exactly two `/ip/firewall/mangle/add` commands, in that order, the first
marking rule carrying port 80 and the second port 443, each carrying
protocol `"tcp"`. -/
theorem qos_policy_router_command_trace (id name target : String)
    (bmin bmax prio : Nat) :
    mikroTikApplyQoSPolicyCommands
      { id := id, name := name, targetDevice := target, bandwidthMin := bmin
        bandwidthMax := bmax, priority := prio, protocol := some "tcp"
        ports := some [80, 443] } =
      [{ path := "/queue/simple/add"
         params :=
           [("name", name), ("target", target),
            ("max-limit", toString bmax ++ "M/" ++ toString bmax ++ "M"),
            ("limit-at", toString bmin ++ "M/" ++ toString bmin ++ "M"),
            ("priority", toString prio), ("comment", "QoS policy " ++ id)] },
       { path := "/ip/firewall/mangle/add"
         params :=
           [("chain", "prerouting"), ("dst-port", "80"), ("protocol", "tcp"),
            ("action", "mark-connection"), ("new-connection-mark", name ++ "_conn"),
            ("comment", "QoS mark for " ++ name)] },
       { path := "/ip/firewall/mangle/add"
         params :=
           [("chain", "prerouting"), ("dst-port", "443"), ("protocol", "tcp"),
            ("action", "mark-connection"), ("new-connection-mark", name ++ "_conn"),
            ("comment", "QoS mark for " ++ name)] }] := by
  rfl

/-- A missing or unparsable counter contributes 0. -/
theorem parseIntOr0_of_blank (o : Option String) (h : counterBlank o = true) :
    parseIntOr0 o = 0 := by
  cases o with
  | none => rfl
  | some s =>
    simp only [counterBlank, Option.isNone] at h
    cases hp : jsParseInt s with
    | none => simp [parseIntOr0, hp]
    | some v => rw [hp] at h; cases h

/-- Folding the pfSense counter sum over blank entries changes nothing. -/
theorem pfSense_fold_blank (l : List PfIfaceCounters)
    (h : ∀ e ∈ l, blankEntry e = true) :
    ∀ st : NetworkStatsRec,
      l.foldl
        (fun st iface =>
          { st with
            bytesIn := st.bytesIn + parseIntOr0 iface.inbytes
            bytesOut := st.bytesOut + parseIntOr0 iface.outbytes
            packetsIn := st.packetsIn + parseIntOr0 iface.inpkts
            packetsOut := st.packetsOut + parseIntOr0 iface.outpkts })
        st = st := by
  induction l with
  | nil => intro st; rfl
  | cons e t ih =>
    intro st
    have he : blankEntry e = true := h e (List.mem_cons_self e t)
    have ht : ∀ x ∈ t, blankEntry x = true := fun x hx => h x (List.mem_cons_of_mem e hx)
    simp only [blankEntry, Bool.and_eq_true] at he
    obtain ⟨⟨⟨h1, h2⟩, h3⟩, h4⟩ := he
    simp only [List.foldl_cons, parseIntOr0_of_blank _ h1, parseIntOr0_of_blank _ h2,
      parseIntOr0_of_blank _ h3, parseIntOr0_of_blank _ h4, Int.add_zero]
    exact ih ht st

/-- C7: For every interface list whose entries all have missing or
unparsable counter fields — and with the connection-state summary's total
likewise absent, as in the scenario — the firewall adapter's `getStats()`
returns the all-zero aggregate instead of raising: each missing counter
defaults to 0. -/
theorem pfsense_stats_blank_counters_zero (ifaces : List PfIfaceCounters)
    (h : ∀ e ∈ ifaces, blankEntry e = true) :
    pfSenseGetStats ifaces none =
      { bytesIn := 0, bytesOut := 0, packetsIn := 0, packetsOut := 0
        activeConnections := 0 } := by
  unfold pfSenseGetStats
  exact pfSense_fold_blank ifaces h _

/-- Witness for C7: two interface entries, one with all counters absent and
one with unparsable counter strings. -/
theorem pfsense_stats_blank_counters_zero_witness :
    pfSenseGetStats blankIfaceStats none =
      { bytesIn := 0, bytesOut := 0, packetsIn := 0, packetsOut := 0
        activeConnections := 0 } :=
  pfsense_stats_blank_counters_zero blankIfaceStats (by decide)

/-- C8: For each of the three adapters and every outcome of the underlying
probe (resolved or rejected), `healthCheck()` never raises — the result is
always `.ok _` — and the boolean is true exactly when the probe succeeded
(for the router adapter, when a session exists and the probe succeeded;
without a session the internal not-connected error is caught and becomes
false). -/
theorem healthCheck_never_raises (probe : Except String Unit) (connected : Bool) :
    pfSenseHealthCheck probe = .ok (isOk probe) ∧
    openDaylightHealthCheck probe = .ok (isOk probe) ∧
    mikroTikHealthCheck connected probe = .ok (connected && isOk probe) :=
  ⟨by cases probe <;> rfl,
   by cases probe <;> rfl,
   by cases connected <;> cases probe <;> rfl⟩

/-- C9 counterexample: in the reachable execution connect → delegated call
→ failover tick, the most recent delegated call was served by adapter 0
(OpenDaylight) but the status report marks adapter 1 (PfSense) active: the
vendor tag of the active entry, `"PfSenseController"`, differs from the tag
of the adapter that actually served the most recent delegated call,
`"OpenDaylightController"`. -/
theorem status_vs_lastServed_cex :
    c9trace.lastServed = some 0 ∧
    c9trace.ms.active = some 1 ∧
    (getAllControllersStatus (fun i => i == 1) c9trace.ms).map
        (fun st => (st.type, st.active)) =
      [("OpenDaylightController", false), ("PfSenseController", true),
       ("MikroTikController", false)] ∧
    ("PfSenseController" : String) ≠ "OpenDaylightController" :=
  ⟨rfl, rfl, rfl, by decide⟩

/-- C9 amended: the active flag in the status report always matches the
manager's current active pointer, and the vendor tag of each entry is the
class name determined by the adapter's kind (fixed when the configuration
is read — though the source derives the string at query time via
`constructor.name` reflection).  Consequently the report matches the
adapter that served the most recent delegated call only as long as no
failover tick intervened: immediately after a delegated call served by
adapter `a`, the report marks exactly `a` active. -/
theorem status_matches_current_active_amended (ts : TraceState) (a : Nat)
    (hcB : Nat → Bool) (ha : ts.ms.active = some a) :
    (mstep ts MEvent.queryEv).lastServed = some a ∧
    (mstep ts MEvent.queryEv).ms = ts.ms ∧
    ∀ i < ts.ms.controllers.length,
      ((getAllControllersStatus hcB (mstep ts MEvent.queryEv).ms)[i]?).map
          ControllerStatus.active = some (decide (a = i)) ∧
      ((getAllControllersStatus hcB (mstep ts MEvent.queryEv).ms)[i]?).map
          ControllerStatus.type =
        some (className (ts.ms.controllers.getD i AdapterKind.openDaylight)) := by
  refine ⟨by simp [mstep, ha], by simp [mstep, ha], ?_⟩
  intro i hi
  have hms : (mstep ts MEvent.queryEv).ms = ts.ms := by simp [mstep, ha]
  rw [hms]
  simp only [getAllControllersStatus, List.getElem?_map, List.getElem?_range hi,
    Option.map_some]
  constructor
  · simp [ha, eq_comm]
  · rfl

/-- Witness for C9's amended claim: a three-adapter manager with adapter 0
active; right after a delegated call the report marks exactly adapter 0
active. -/
theorem status_matches_current_active_amended_witness :
    (mstep traceActive0 MEvent.queryEv).lastServed = some 0 ∧
    (mstep traceActive0 MEvent.queryEv).ms = traceActive0.ms ∧
    ∀ i < traceActive0.ms.controllers.length,
      ((getAllControllersStatus (fun _ => true)
            (mstep traceActive0 MEvent.queryEv).ms)[i]?).map
          ControllerStatus.active = some (decide (0 = i)) ∧
      ((getAllControllersStatus (fun _ => true)
            (mstep traceActive0 MEvent.queryEv).ms)[i]?).map
          ControllerStatus.type =
        some (className (traceActive0.ms.controllers.getD i AdapterKind.openDaylight)) :=
  status_matches_current_active_amended traceActive0 0 (fun _ => true) rfl

/-- C10: The constructor starts the failover timer (before `connect()` is
ever called) and leaves no adapter active; from that freshly constructed
state — `connect()` never invoked — a single timer tick runs full
selection, making the first healthy adapter active, after which a delegated
query succeeds, returning the adapter's result. -/
theorem tick_activates_before_connect (cfg : ManagerConfig)
    (hc : Nat → Except String Bool)
    (h : ∃ i, i < (initializeControllers cfg).length ∧ isOkTrue (hc i) = true) :
    (managerInit cfg).timerOn = true ∧
    (managerInit cfg).active = none ∧
    ∃ j, (checkAndFailover hc (managerInit cfg)).1.active = some j ∧
      isOkTrue (hc j) = true ∧ (∀ k < j, isOkTrue (hc k) = false) ∧
      ∀ (α : Type) (call : Nat → Except String α) (v : α), call j = .ok v →
        delegate (checkAndFailover hc (managerInit cfg)).1 call =
          (.ok v, (checkAndFailover hc (managerInit cfg)).1, [j]) := by
  obtain ⟨j, hsel⟩ := selectLoop_range_isSome hc (initializeControllers cfg).length h
  obtain ⟨h1, h2, h3⟩ := selectLoop_range_spec hc _ j hsel
  have htick : (checkAndFailover hc (managerInit cfg)).1 =
      { managerInit cfg with active := some j } := by
    simp only [checkAndFailover, managerInit, selectActiveController]
    rw [hsel]
  refine ⟨rfl, rfl, j, ?_, h2, h3, ?_⟩
  · rw [htick]
  · intro α call v hv
    rw [htick]
    simp [delegate, hv]

/-- Witness for C10: all three backends configured, only the second adapter
healthy; one tick from the freshly constructed manager activates index 1
and a device query then succeeds. -/
theorem tick_activates_before_connect_witness :
    (managerInit cfgAll).timerOn = true ∧
    (managerInit cfgAll).active = none ∧
    ∃ j, (checkAndFailover (hcOnly 1) (managerInit cfgAll)).1.active = some j ∧
      isOkTrue (hcOnly 1 j) = true ∧ (∀ k < j, isOkTrue (hcOnly 1 k) = false) ∧
      ∀ (α : Type) (call : Nat → Except String α) (v : α), call j = .ok v →
        delegate (checkAndFailover (hcOnly 1) (managerInit cfgAll)).1 call =
          (.ok v, (checkAndFailover (hcOnly 1) (managerInit cfgAll)).1, [j]) :=
  tick_activates_before_connect cfgAll (hcOnly 1) ⟨1, by decide, rfl⟩

end EyeNet
